import Mathlib

/-!
Shallow embedding of `src/emailsender.py` (SMTP-Email-Sender).

The Python module exposes two part builders (`email_text`, `email_file`) and a
session class `EmailSender` with operations `create_message`, `attach`,
`sendmail` and `finish`.  The SMTP transport and the filesystem are external
collaborators; here they enter as explicit oracles: the outcome of the single
`server.sendmail` call, the outcome of `server.quit`, and a map from paths to
file contents.  Python exceptions are modelled with explicit result values,
and Python attributes that may hold `None` are modelled with `Option`.
-/

namespace EmailSenderSpec

/-- Outcome of the transport `server.sendmail` call (raises on failure). -/
inductive SendOutcome
  | ok
  | err (msg : String)
deriving DecidableEq

/-- Outcome of the transport `server.quit` call (raises on failure). -/
inductive CloseOutcome
  | ok
  | err (msg : String)
deriving DecidableEq

/-- The MIMEBase attachment part built by `email_file`: a base64 payload
(as the characters of the encoded text) and the Content-Disposition header
value. -/
structure FilePart where
  payload : List Char
  disposition : List Char
deriving DecidableEq

/-- A message part: `MIMEText` from `email_text`, or the attachment part
from `email_file`. -/
inductive Part
  | text (content : String) (formatType : String)
  | file (fp : FilePart)
deriving DecidableEq

/-- The `MIMEMultipart` message assembled by `create_message`/`attach`:
From/To/Subject headers, optional Cc header, and the ordered parts. -/
structure Message where
  fromAddr : String
  toAddr : String
  subject : String
  ccHeader : Option String
  parts : List Part
deriving DecidableEq

/-- The mutable attributes of an `EmailSender` instance.  `message`,
`receiver` and `cc` start as `None` in `__init__` and so are `Option`s;
`errors` starts as `[]`.  `self.receiver` (a possibly-`None` Python value)
flows into recipient lists and the error list, hence `List (Option String)`
there. -/
structure EmailSender where
  sender : String
  password : String
  debug : Bool
  message : Option Message
  receiver : Option String
  cc : Option (List String)
  errors : List (Option String)
deriving DecidableEq

/-- Model of `email_text(text, format_type)`: builds a MIMEText part. -/
def email_text (text : String) (format_type : String) : Part :=
  Part.text text format_type

/-- Error message raised by `attach` when no message exists. -/
def attachMissingMsg : String :=
  "Message is not created! Please call create_message() before attaching content."

/-- Error message raised by `sendmail` when no message exists. -/
def sendMissingMsg : String :=
  "Message is not created! Please create a message before sending."

/-- A Python call result: normal return, or a raised exception carrying its
message. -/
inductive PyResult (α : Type)
  | ok (a : α)
  | exn (msg : String)
deriving DecidableEq

/-- Model of `create_message(receiver, subject, cc)`: builds a fresh multipart message
with From/To/Subject; `if cc:` (true only for a non-empty list) it stores
`self.cc = cc` and sets a comma-joined Cc header; then `self.receiver` is set.
Note that `self.cc` is left untouched when `cc` is absent or empty. -/
def create_message (s : EmailSender) (receiver : String) (subject : String)
    (cc : Option (List String)) : EmailSender :=
  let base : Message :=
    { fromAddr := s.sender, toAddr := receiver, subject := subject,
      ccHeader := none, parts := [] }
  match cc with
  | some (c :: cs) =>
      { s with
          message := some { base with ccHeader := some (String.intercalate ", " (c :: cs)) },
          cc := some (c :: cs),
          receiver := some receiver }
  | _ =>
      { s with message := some base, receiver := some receiver }

/-- Model of `attach(attachment)`: raises `ValueError` when no message exists,
otherwise appends the part to the message. -/
def attach (s : EmailSender) (attachment : Part) : PyResult Unit × EmailSender :=
  match s.message with
  | none => (PyResult.exn attachMissingMsg, s)
  | some m =>
      (PyResult.ok (), { s with message := some { m with parts := m.parts ++ [attachment] } })

/-- Plain-text rendering of one part, used by `serialize`. -/
def partText : Part → String
  | Part.text content formatType => formatType ++ ": " ++ content
  | Part.file fp => String.mk fp.disposition ++ ": " ++ String.mk fp.payload

/-- Model of `message.as_string()`: a deterministic serialization of the
headers and the ordered parts (the exact MIME text format is an external
collaborator; only determinism and the structural content matter here). -/
def serialize (m : Message) : String :=
  "From: " ++ m.fromAddr ++ "\nTo: " ++ m.toAddr ++ "\nSubject: " ++ m.subject ++
    (match m.ccHeader with
     | some c => "\nCc: " ++ c
     | none => "") ++
    "\n\n" ++ String.intercalate "\n" (m.parts.map partText)

/-- One invocation of the transport `server.sendmail(from, recipients, raw)`. -/
structure TransportCall where
  envFrom : String
  recipients : List (Option String)
  raw : String
deriving DecidableEq

/-- The recipient list computed at the start of `sendmail`:
`[self.receiver]`, extended by `self.cc` when that is truthy (a non-empty
list; `extend` of an empty list is a no-op, so `getD []` is exact). -/
def computeRecipients (s : EmailSender) : List (Option String) :=
  s.receiver :: (s.cc.getD []).map some

/-- Everything observable about one `sendmail()` call: the Python result,
the state afterwards, the transport send invocations made, and the lines
printed to the debug sink. -/
structure SendTrace where
  result : PyResult Unit
  state : EmailSender
  sends : List TransportCall
  printed : List String
deriving DecidableEq

/-- Model of `sendmail()`: raises `ValueError` when no message exists.  Otherwise it
computes the recipients, then: in debug mode it prints the serialized message
and clears the message; in live mode it invokes the transport send — on
success it clears the message, while on a transport exception the `except`
block appends `self.receiver` to `self.errors` and the `self.message = None`
line inside the `try` is skipped, so the message is retained. -/
def sendmail (outcome : SendOutcome) (s : EmailSender) : SendTrace :=
  match s.message with
  | none => { result := PyResult.exn sendMissingMsg, state := s, sends := [], printed := [] }
  | some m =>
      let recipients := computeRecipients s
      if s.debug then
        { result := PyResult.ok (), state := { s with message := none },
          sends := [], printed := [serialize m] }
      else
        match outcome with
        | SendOutcome.ok =>
            { result := PyResult.ok (), state := { s with message := none },
              sends := [{ envFrom := s.sender, recipients := recipients, raw := serialize m }],
              printed := [] }
        | SendOutcome.err _ =>
            { result := PyResult.ok (),
              state := { s with errors := s.errors ++ [s.receiver] },
              sends := [{ envFrom := s.sender, recipients := recipients, raw := serialize m }],
              printed := [] }

/-- The end-of-session report logged by `finish`. -/
inductive Report
  | allOk
  | failures (l : List (Option String))
deriving DecidableEq

/-- Everything observable about one `finish()` call: the Python result, the
logged report, how many times `server.quit` was attempted, and the state
afterwards. -/
structure FinishTrace where
  result : PyResult Unit
  report : Report
  closeAttempts : Nat
  state : EmailSender
deriving DecidableEq

/-- Model of `finish()`: logs success when `self.errors` is empty and the error list
otherwise, then calls `server.quit()` once inside a `try` whose `except`
swallows any exception, so `finish` itself always returns normally. -/
def finish (closeOutcome : CloseOutcome) (s : EmailSender) : FinishTrace :=
  let report := if s.errors = [] then Report.allOk else Report.failures s.errors
  match closeOutcome with
  | CloseOutcome.ok =>
      { result := PyResult.ok (), report := report, closeAttempts := 1, state := s }
  | CloseOutcome.err _ =>
      { result := PyResult.ok (), report := report, closeAttempts := 1, state := s }

/-! The attachment builder `email_file`: base64 transfer encoding of the
payload (`encoders.encode_base64`) and RFC 2231 encoding of the display
name (`encode_rfc2231(..., charset="utf-8")`), together with the decoding
functions used to state the round-trip property.  File bytes and the
UTF-8 bytes of the display name are `Nat`s below 256. -/

/-- Base64 encoding of a byte list into 6-bit values, three bytes to four
sextets, where the value 64 stands for the `=` padding character. -/
def b64encode : List Nat → List Nat
  | [] => []
  | [a] => [a / 4, a % 4 * 16, 64, 64]
  | [a, b] => [a / 4, a % 4 * 16 + b / 16, b % 16 * 4, 64]
  | a :: b :: c :: rest =>
      a / 4 :: (a % 4 * 16 + b / 16) :: (b % 16 * 4 + c / 64) :: c % 64 :: b64encode rest

/-- Base64 decoding: four sextets back to up to three bytes, with the value
64 read as padding. -/
def b64decode : List Nat → List Nat
  | w :: x :: y :: z :: rest =>
      if z = 64 then
        if y = 64 then [w * 4 + x / 16]
        else [w * 4 + x / 16, x % 16 * 16 + y / 4]
      else
        (w * 4 + x / 16) :: (x % 16 * 16 + y / 4) :: (y % 4 * 64 + z) :: b64decode rest
  | _ => []

/-- The base64 alphabet followed by the padding character, so that the
character of sextet `n` (or of the padding marker 64) is at index `n`. -/
def b64alphabet : List Char :=
  ("ABCDEFGHIJKLMNOPQRSTUVWXYZabcdefghijklmnopqrstuvwxyz0123456789+/=").data

/-- The base64 character of a sextet (or of the padding marker 64). -/
def b64char (n : Nat) : Char :=
  b64alphabet.getD n (Char.ofNat 65)

/-- The sextet (or padding marker) of a base64 character. -/
def b64val (c : Char) : Nat :=
  b64alphabet.findIdx (fun d => d == c)

/-- Decode a base64 character payload back to bytes. -/
def decodeBase64Payload (cs : List Char) : List Nat :=
  b64decode (cs.map b64val)

/-- The uppercase hexadecimal digit of a value below 16, as produced by
`urllib.parse.quote`. -/
def hexDigit (n : Nat) : Char :=
  ("0123456789ABCDEF").data.getD n (Char.ofNat 48)

/-- The value of an uppercase hexadecimal digit. -/
def hexVal (c : Char) : Nat :=
  if c.toNat ≤ 57 then c.toNat - 48 else c.toNat - 55

/-- The bytes `urllib.parse.quote` leaves unescaped: ASCII letters, digits,
and `_ . - ~`. -/
def isSafeByte (b : Nat) : Prop :=
  (65 ≤ b ∧ b ≤ 90) ∨ (97 ≤ b ∧ b ≤ 122) ∨ (48 ≤ b ∧ b ≤ 57) ∨
    b = 45 ∨ b = 46 ∨ b = 95 ∨ b = 126

instance (b : Nat) : Decidable (isSafeByte b) := by
  unfold isSafeByte
  infer_instance

/-- Percent-encoding of a byte list (`urllib.parse.quote` with an empty safe
set beyond the always-safe characters): a safe byte becomes its character,
any other byte becomes `%` and two uppercase hex digits. -/
def percentEncode : List Nat → List Char
  | [] => []
  | b :: rest =>
      (if isSafeByte b then [Char.ofNat b]
       else [Char.ofNat 37, hexDigit (b / 16), hexDigit (b % 16)]) ++ percentEncode rest

/-- Percent-decoding back to bytes: `%HH` yields the byte `HH`, any other
character yields its code point. -/
def percentDecode : List Char → List Nat
  | c :: h :: l :: rest =>
      if c = Char.ofNat 37 then (hexVal h * 16 + hexVal l) :: percentDecode rest
      else c.toNat :: percentDecode (h :: l :: rest)
  | c :: rest =>
      if c = Char.ofNat 37 then [] else c.toNat :: percentDecode rest
  | [] => []

/-- The fixed prefix of the Content-Disposition value set by `email_file`:
`attachment; filename*=` followed by the `utf-8''` charset/language prefix
that `encode_rfc2231` produces. -/
def dispositionLead : List Char :=
  ("attachment; filename*=utf-8\x27\x27").data

/-- The full Content-Disposition header value for a display name given by
its UTF-8 bytes. -/
def dispositionValue (name : List Nat) : List Char :=
  dispositionLead ++ percentEncode name

/-- Recover the display-name bytes from the Content-Disposition value. -/
def decodeDispositionName (cs : List Char) : List Nat :=
  percentDecode (cs.drop dispositionLead.length)

/-- The raw filesystem signals `open`/`read` can produce: the not-found
signal (`FileNotFoundError`) or any other error. -/
inductive FsError
  | notFound
  | otherError (code : Nat)
deriving DecidableEq

/-- What `email_file` can raise: the `ValueError` it builds for a missing
file (`raise ValueError(msg) from e`, so it carries its cause but is a
different error than the raw signal), or a raw filesystem error propagated
unmodified. -/
inductive EmailFileError
  | attachmentNotFound (msg : String) (cause : FsError)
  | propagated (e : FsError)
deriving DecidableEq

/-- The message of the `ValueError` raised for a missing file. -/
def notFoundMsg (path : String) : String :=
  "File \x27" ++ path ++ "\x27 not found! Please verify the path and check file permissions."

/-- Model of `email_file(path, attachment_file_name)` over an explicit filesystem:
reads the file fully, base64-encodes the bytes into the payload, and adds
the `Content-Disposition` header with the RFC 2231-encoded display name.
`FileNotFoundError` is turned into the `ValueError` above; any other error
propagates unmodified.  The display name is given by its UTF-8 bytes. -/
def email_file (fs : String → Except FsError (List Nat)) (path : String)
    (attachment_file_name : List Nat) : Except EmailFileError FilePart :=
  match fs path with
  | Except.error FsError.notFound =>
      Except.error (EmailFileError.attachmentNotFound (notFoundMsg path) FsError.notFound)
  | Except.error e => Except.error (EmailFileError.propagated e)
  | Except.ok bytes =>
      Except.ok { payload := (b64encode bytes).map b64char,
                  disposition := dispositionValue attachment_file_name }

/-! Round-trip lemmas for the base64 and percent encodings. -/

lemma b64decode_encode (bs : List Nat) :
    (∀ b ∈ bs, b < 256) → b64decode (b64encode bs) = bs := by
  induction bs using b64encode.induct with
  | case1 =>
      intro _
      rfl
  | case2 a =>
      intro _
      rw [b64encode, b64decode]
      norm_num
      omega
  | case3 a b =>
      intro h
      have hb : b < 256 := h b (by simp)
      rw [b64encode, b64decode, if_pos rfl, if_neg (by omega)]
      simp only [List.cons.injEq, and_true]
      exact ⟨by omega, by omega⟩
  | case4 a b c rest ih =>
      intro h
      have hb : b < 256 := h b (by simp)
      have hc : c < 256 := h c (by simp)
      have hr : ∀ x ∈ rest, x < 256 := fun x hx => h x (by simp [hx])
      rw [b64encode, b64decode, if_neg (by omega)]
      simp only [List.cons.injEq]
      exact ⟨by omega, by omega, by omega, ih hr⟩

lemma b64encode_bounds (bs : List Nat) :
    (∀ b ∈ bs, b < 256) → ∀ x ∈ b64encode bs, x ≤ 64 := by
  induction bs using b64encode.induct with
  | case1 =>
      intro _ x hx
      simp [b64encode] at hx
  | case2 a =>
      intro h x hx
      have ha : a < 256 := h a (by simp)
      simp [b64encode] at hx
      rcases hx with rfl | rfl | rfl | rfl <;> omega
  | case3 a b =>
      intro h x hx
      have ha : a < 256 := h a (by simp)
      have hb : b < 256 := h b (by simp)
      simp [b64encode] at hx
      rcases hx with rfl | rfl | rfl | rfl <;> omega
  | case4 a b c rest ih =>
      intro h x hx
      have ha : a < 256 := h a (by simp)
      have hb : b < 256 := h b (by simp)
      have hc : c < 256 := h c (by simp)
      have hr : ∀ y ∈ rest, y < 256 := fun y hy => h y (by simp [hy])
      simp [b64encode] at hx
      rcases hx with rfl | rfl | rfl | rfl | hx
      · omega
      · omega
      · omega
      · omega
      · exact ih hr x hx

lemma b64val_b64char (x : Nat) (h : x ≤ 64) : b64val (b64char x) = x := by
  have H : ∀ y : Fin 65, b64val (b64char y.val) = y.val := by decide
  exact H ⟨x, by omega⟩

lemma decode_payload_encode (bs : List Nat) (h : ∀ b ∈ bs, b < 256) :
    decodeBase64Payload ((b64encode bs).map b64char) = bs := by
  unfold decodeBase64Payload
  rw [List.map_map]
  have heq : (b64encode bs).map (b64val ∘ b64char) = b64encode bs := by
    have := List.map_congr_left
      (fun x hx => by
        show (b64val ∘ b64char) x = id x
        exact b64encode_bounds bs h x hx |> b64val_b64char x)
    rw [this, List.map_id]
  rw [heq]
  exact b64decode_encode bs h

lemma hexVal_hexDigit (d : Nat) (h : d < 16) : hexVal (hexDigit d) = d := by
  interval_cases d <;> decide

lemma isSafeByte_lt (b : Nat) (h : isSafeByte b) : b < 127 := by
  rcases h with ⟨h1, h2⟩ | ⟨h1, h2⟩ | ⟨h1, h2⟩ | h | h | h | h <;> omega

lemma isSafeByte_char (b : Nat) (h : isSafeByte b) :
    (Char.ofNat b).toNat = b ∧ Char.ofNat b ≠ Char.ofNat 37 := by
  have H : ∀ y : Fin 127, isSafeByte y.val →
      (Char.ofNat y.val).toNat = y.val ∧ Char.ofNat y.val ≠ Char.ofNat 37 := by decide
  exact H ⟨b, isSafeByte_lt b h⟩ h

lemma percentDecode_safe (b : Nat) (cs : List Char) (hs : isSafeByte b) :
    percentDecode (Char.ofNat b :: cs) = b :: percentDecode cs := by
  obtain ⟨ht, hne⟩ := isSafeByte_char b hs
  match cs with
  | [] => simp [percentDecode, hne, ht]
  | [c1] => simp [percentDecode, hne, ht]
  | c1 :: c2 :: t => simp [percentDecode, hne, ht]

lemma percentDecode_escaped (b : Nat) (cs : List Char) (h : b < 256) :
    percentDecode (Char.ofNat 37 :: hexDigit (b / 16) :: hexDigit (b % 16) :: cs) =
      b :: percentDecode cs := by
  rw [percentDecode, if_pos rfl, hexVal_hexDigit (b / 16) (by omega),
    hexVal_hexDigit (b % 16) (by omega)]
  congr 1
  omega

lemma percent_roundtrip (bs : List Nat) (h : ∀ b ∈ bs, b < 256) :
    percentDecode (percentEncode bs) = bs := by
  induction bs with
  | nil => rfl
  | cons b rest ih =>
      have hb : b < 256 := h b (by simp)
      have hr : ∀ x ∈ rest, x < 256 := fun x hx => h x (by simp [hx])
      by_cases hs : isSafeByte b
      · rw [percentEncode, if_pos hs, List.singleton_append, percentDecode_safe b _ hs, ih hr]
      · rw [percentEncode, if_neg hs, List.cons_append, List.cons_append,
          List.singleton_append, percentDecode_escaped b _ hb, ih hr]

lemma decode_disposition_encode (name : List Nat) (h : ∀ b ∈ name, b < 256) :
    decodeDispositionName (dispositionValue name) = name := by
  unfold decodeDispositionName dispositionValue
  rw [List.drop_left]
  exact percent_roundtrip name h

/-- Claim C6: on a filesystem error, `email_file` never surfaces the raw
not-found signal itself; a not-found signal becomes the derived
attachment-not-found `ValueError` (carrying the raw signal as its cause),
and any other error propagates unmodified. -/
theorem email_file_error_taxonomy (fs : String → Except FsError (List Nat)) (path : String)
    (name : List Nat) (e : FsError) (h : fs path = Except.error e) :
    email_file fs path name ≠ Except.error (EmailFileError.propagated FsError.notFound) ∧
    (e = FsError.notFound →
      email_file fs path name =
        Except.error (EmailFileError.attachmentNotFound (notFoundMsg path) FsError.notFound)) ∧
    (∀ c, e = FsError.otherError c →
      email_file fs path name = Except.error (EmailFileError.propagated (FsError.otherError c))) := by
  cases e <;> simp [email_file, h]

/-- A filesystem on which every path is missing. -/
def fsMissing : String → Except FsError (List Nat) :=
  fun _ => Except.error FsError.notFound

/-- Witness for C6 on a missing path. -/
theorem email_file_error_taxonomy_witness :
    email_file fsMissing "a.txt" [97] ≠
      Except.error (EmailFileError.propagated FsError.notFound) ∧
    (FsError.notFound = FsError.notFound →
      email_file fsMissing "a.txt" [97] =
        Except.error (EmailFileError.attachmentNotFound (notFoundMsg "a.txt") FsError.notFound)) ∧
    (∀ c, FsError.notFound = FsError.otherError c →
      email_file fsMissing "a.txt" [97] =
        Except.error (EmailFileError.propagated (FsError.otherError c))) :=
  email_file_error_taxonomy fsMissing "a.txt" [97] FsError.notFound rfl

/-- Claim C7: for an existing file and any display name, `email_file`
succeeds with a part whose payload base64-decodes to the exact file bytes
and whose disposition header decodes back to the original display name. -/
theorem email_file_roundtrip (fs : String → Except FsError (List Nat)) (path : String)
    (name bytes : List Nat) (hfs : fs path = Except.ok bytes)
    (hb : ∀ b ∈ bytes, b < 256) (hn : ∀ b ∈ name, b < 256) :
    ∃ fp, email_file fs path name = Except.ok fp ∧
      decodeBase64Payload fp.payload = bytes ∧
      decodeDispositionName fp.disposition = name := by
  refine ⟨{ payload := (b64encode bytes).map b64char,
            disposition := dispositionValue name }, ?_, ?_, ?_⟩
  · simp [email_file, hfs]
  · exact decode_payload_encode bytes hb
  · exact decode_disposition_encode name hn

/-- A filesystem holding one file with bytes `Hi`. -/
def fsHello : String → Except FsError (List Nat) :=
  fun _ => Except.ok [72, 105]

/-- Witness for C7: the two-byte file `Hi` and the display name whose UTF-8
bytes are `[97, 195, 169]` (a non-ASCII name). -/
theorem email_file_roundtrip_witness :
    ∃ fp, email_file fsHello "hello.txt" [97, 195, 169] = Except.ok fp ∧
      decodeBase64Payload fp.payload = [72, 105] ∧
      decodeDispositionName fp.disposition = [97, 195, 169] :=
  email_file_roundtrip fsHello "hello.txt" [97, 195, 169] [72, 105] rfl
    (by decide) (by decide)

/-! Concrete session states used as witnesses and counterexamples. -/

/-- A freshly constructed live-mode session (no message yet). -/
def freshLive : EmailSender :=
  { sender := "me@x.com", password := "pw", debug := false,
    message := none, receiver := none, cc := none, errors := [] }

/-- A freshly constructed debug-mode session (no message yet). -/
def freshDebug : EmailSender :=
  { freshLive with debug := true }

/-- The message built by `create_message "b@x.com" "Hi"` with no cc. -/
def msgPlain : Message :=
  { fromAddr := "me@x.com", toAddr := "b@x.com", subject := "Hi",
    ccHeader := none, parts := [] }

/-- The message built by `create_message "b@x.com" "Hi" (cc=["c@x.com"])`. -/
def msgWithCc : Message :=
  { fromAddr := "me@x.com", toAddr := "b@x.com", subject := "Hi",
    ccHeader := some (String.intercalate ", " ["c@x.com"]), parts := [] }

/-- Live session holding `msgWithCc`. -/
def liveMsgSession : EmailSender :=
  create_message freshLive "b@x.com" "Hi" (some ["c@x.com"])

/-- Debug session holding `msgPlain`. -/
def debugMsgSession : EmailSender :=
  create_message freshDebug "b@x.com" "Hi" none

/-- Claim C4: with no current message, `attach` and `sendmail` both fail with
the invalid-state `ValueError`, leave the state unchanged and perform no
transport send. -/
theorem attach_sendmail_before_create (s : EmailSender) (p : Part) (o : SendOutcome)
    (h : s.message = none) :
    attach s p = (PyResult.exn attachMissingMsg, s) ∧
    sendmail o s = { result := PyResult.exn sendMissingMsg, state := s, sends := [], printed := [] } := by
  constructor <;> simp [attach, sendmail, h]

/-- Witness for C4 on a freshly constructed session. -/
theorem attach_sendmail_before_create_witness :
    attach freshLive (Part.text "hello" "plain") = (PyResult.exn attachMissingMsg, freshLive) ∧
    sendmail SendOutcome.ok freshLive =
      { result := PyResult.exn sendMissingMsg, state := freshLive, sends := [], printed := [] } :=
  attach_sendmail_before_create freshLive (Part.text "hello" "plain") SendOutcome.ok rfl

/-- Claim C5: in debug mode, `sendmail` on an active message performs no
transport send, prints exactly the serialized message to the sink, returns
normally (success), and leaves the failure list unchanged. -/
theorem sendmail_debug_no_transport (s : EmailSender) (m : Message) (o : SendOutcome)
    (hm : s.message = some m) (hd : s.debug = true) :
    (sendmail o s).sends = [] ∧
    (sendmail o s).printed = [serialize m] ∧
    (sendmail o s).result = PyResult.ok () ∧
    (sendmail o s).state.errors = s.errors := by
  simp [sendmail, hm, hd]

/-- Witness for C5 on a concrete debug session. -/
theorem sendmail_debug_no_transport_witness :
    (sendmail SendOutcome.ok debugMsgSession).sends = [] ∧
    (sendmail SendOutcome.ok debugMsgSession).printed = [serialize msgPlain] ∧
    (sendmail SendOutcome.ok debugMsgSession).result = PyResult.ok () ∧
    (sendmail SendOutcome.ok debugMsgSession).state.errors = debugMsgSession.errors :=
  sendmail_debug_no_transport debugMsgSession msgPlain SendOutcome.ok rfl rfl

/-- Claim C3: in live mode, when the transport send raises, `sendmail`
returns normally, appends exactly the primary recipient (and nothing else)
to the failure list, and the one attempted transport send used the recipient
list `[to] ++ cc`. -/
theorem sendmail_live_failure_appends_primary (s : EmailSender) (m : Message) (e : String)
    (hm : s.message = some m) (hd : s.debug = false) :
    (sendmail (SendOutcome.err e) s).result = PyResult.ok () ∧
    (sendmail (SendOutcome.err e) s).state.errors = s.errors ++ [s.receiver] ∧
    (sendmail (SendOutcome.err e) s).sends.map TransportCall.recipients =
      [s.receiver :: (s.cc.getD []).map some] := by
  simp [sendmail, hm, hd, computeRecipients]

/-- Witness for C3: the spec scenario `create_message("b@x.com","Hi",cc=["c@x.com"])`
followed by `sendmail()` with a failing transport. -/
theorem sendmail_live_failure_appends_primary_witness :
    (sendmail (SendOutcome.err "boom") liveMsgSession).result = PyResult.ok () ∧
    (sendmail (SendOutcome.err "boom") liveMsgSession).state.errors =
      liveMsgSession.errors ++ [liveMsgSession.receiver] ∧
    (sendmail (SendOutcome.err "boom") liveMsgSession).sends.map TransportCall.recipients =
      [liveMsgSession.receiver :: (liveMsgSession.cc.getD []).map some] :=
  sendmail_live_failure_appends_primary liveMsgSession msgWithCc "boom" rfl rfl

/-- Claim C10: when a live `sendmail` fails in the transport, the resulting
state is exactly the old state with the primary recipient appended to the
failure list: the message (with all parts and headers), receiver and cc are
retained unchanged. -/
theorem sendmail_live_failure_frame (s : EmailSender) (m : Message) (e : String)
    (hm : s.message = some m) (hd : s.debug = false) :
    (sendmail (SendOutcome.err e) s).state = { s with errors := s.errors ++ [s.receiver] } ∧
    (sendmail (SendOutcome.err e) s).state.message = some m := by
  refine ⟨?_, ?_⟩ <;> simp [sendmail, hm, hd]

/-- Witness for C10 on a concrete live session. -/
theorem sendmail_live_failure_frame_witness :
    (sendmail (SendOutcome.err "boom") liveMsgSession).state =
      { liveMsgSession with errors := liveMsgSession.errors ++ [liveMsgSession.receiver] } ∧
    (sendmail (SendOutcome.err "boom") liveMsgSession).state.message = some msgWithCc :=
  sendmail_live_failure_frame liveMsgSession msgWithCc "boom" rfl rfl

/-- Counterexample to claim C1 as stated: after a live `sendmail` whose
transport send raises, the in-progress message is NOT cleared, and an
immediately following `sendmail` with no intervening `create_message` does
not fail with the invalid-state `ValueError`. -/
theorem sendmail_failure_retains_message_cex :
    (sendmail (SendOutcome.err "boom") liveMsgSession).state.message ≠ none ∧
    (sendmail (SendOutcome.err "boom")
        ((sendmail (SendOutcome.err "boom") liveMsgSession).state)).result ≠
      PyResult.exn sendMissingMsg := by
  decide

/-- Claim C1 (amended): after `sendmail` finds an active message, the message
is cleared in debug mode and on live transport success — so a second
`sendmail` then fails with the invalid-state `ValueError` — but on live
transport failure the message is retained and a second `sendmail` returns
normally instead of failing. -/
theorem sendmail_message_lifecycle (s : EmailSender) (m : Message) (o o2 : SendOutcome)
    (hm : s.message = some m) :
    ((s.debug = true ∨ o = SendOutcome.ok) →
      (sendmail o s).state.message = none ∧
      (sendmail o2 (sendmail o s).state).result = PyResult.exn sendMissingMsg) ∧
    (∀ e, s.debug = false → o = SendOutcome.err e →
      (sendmail o s).state.message = some m ∧
      (sendmail o2 (sendmail o s).state).result = PyResult.ok ()) := by
  constructor
  · intro h
    by_cases hd : s.debug = true
    · simp [sendmail, hm, hd]
    · rcases h with h | h
      · exact absurd h hd
      · subst h
        simp [sendmail, hm, hd]
  · intro e hd ho
    subst ho
    cases o2 <;> simp [sendmail, hm, hd]

/-- Witness for C1 (amended) on a concrete live session with a successful
transport send. -/
theorem sendmail_message_lifecycle_witness :
    ((liveMsgSession.debug = true ∨ SendOutcome.ok = SendOutcome.ok) →
      (sendmail SendOutcome.ok liveMsgSession).state.message = none ∧
      (sendmail SendOutcome.ok (sendmail SendOutcome.ok liveMsgSession).state).result =
        PyResult.exn sendMissingMsg) ∧
    (∀ e, liveMsgSession.debug = false → SendOutcome.ok = SendOutcome.err e →
      (sendmail SendOutcome.ok liveMsgSession).state.message = some msgWithCc ∧
      (sendmail SendOutcome.ok (sendmail SendOutcome.ok liveMsgSession).state).result =
        PyResult.ok ()) :=
  sendmail_message_lifecycle liveMsgSession msgWithCc SendOutcome.ok SendOutcome.ok rfl

/-- The failing input for claim C2: a session whose first message supplied a
cc list and was sent successfully, followed by `create_message "b@x.com" "s2"`
with no cc. -/
def staleCcState : EmailSender :=
  create_message (sendmail SendOutcome.ok
    (create_message freshLive "a@x.com" "s1" (some ["c@x.com"]))).state "b@x.com" "s2" none

/-- The message the second `create_message` of `staleCcState` builds: note
that it carries no Cc header. -/
def msgStale : Message :=
  { fromAddr := "me@x.com", toAddr := "b@x.com", subject := "s2",
    ccHeader := none, parts := [] }

/-- Claim C2 fails on the code: after `create_message` with no cc, the old
`self.cc` is still present, the freshly built message carries no Cc header,
and yet the recipient list computed by the next `sendmail` — and passed to
the transport — is `["b@x.com", "c@x.com"]`, not `["b@x.com"]`. -/
theorem create_message_stale_cc_bug :
    staleCcState.cc = some ["c@x.com"] ∧
    staleCcState.message = some msgStale ∧
    computeRecipients staleCcState = [some "b@x.com", some "c@x.com"] ∧
    (sendmail SendOutcome.ok staleCcState).sends.map TransportCall.recipients =
      [[some "b@x.com", some "c@x.com"]] := by
  decide

/-- Claim C8: `finish` reports overall success exactly when the failure list
is empty, otherwise reports the accumulated failure list in occurrence
order, and leaves the whole state (in particular the failure list)
unmodified. -/
theorem finish_report_matches_errors (co : CloseOutcome) (s : EmailSender) :
    ((finish co s).report = if s.errors = [] then Report.allOk else Report.failures s.errors) ∧
    (finish co s).state = s := by
  cases co <;> simp [finish]

/-- Claim C9: `finish` attempts the transport close exactly once and returns
normally whether or not the close raises. -/
theorem finish_close_once_never_raises (co : CloseOutcome) (s : EmailSender) :
    (finish co s).closeAttempts = 1 ∧ (finish co s).result = PyResult.ok () := by
  cases co <;> simp [finish]

end EmailSenderSpec
